import Mathlib

/-!
Verification of the flow-forge traffic-simulation engine.

The definitions below are a shallow embedding of the TypeScript sources:

* `src/src/lib/simulation/simulator.ts` (first iteration): the
  `FixedTimingController`, the `AdaptiveController` with the simplified
  count-buffer logic, `updateVehicles`, `isVehicleAtTrafficLight`,
  `isVehicleAhead`, `spawnVehicles`, `updateStatistics`,
  `getControllerByType`, `updateSimulation` and `createInitialState`;
* `src/unnamed/part_004`: the `ReinforcementLearningController` with
  weighted density, discretized state keys, experience replay and the
  yellow-to-red consistency / no-green fallback passes;
* `src/unnamed/part_009` (`qlearning.ts`): the standalone Q-table and its
  `updateQTable` Q-learning update.

JavaScript numbers are embedded as `Rat` (all arithmetic the claims touch
is exact decimal arithmetic).  Mutable class fields become explicitly
threaded state records, and every call to `Math.random()` becomes a field
of an explicit oracle record, so a run of the simulator is a function of
the initial state together with the sequence of random draws.
-/

/- Batteries marks the rational-number operations `@[irreducible]`, which
blocks `decide`/`rfl` evaluation of concrete simulation runs.  Kernel
reduction ignores reducibility annotations, so restoring the default
transparency only lets the elaborator perform the same evaluation the
kernel checks. -/
set_option allowUnsafeReducibility true in
attribute [semireducible] Rat.add Rat.sub Rat.mul Rat.inv

set_option maxRecDepth 20000

namespace TrafficSim

/-! ## Data model (`types.ts` as used by `simulator.ts` / `part_004`) -/

inductive Direction
  | north | south | east | west
deriving DecidableEq, Repr

inductive LightState
  | red | yellow | green
deriving DecidableEq, Repr

inductive VehicleType
  | car | truck
deriving DecidableEq, Repr

inductive Lane
  | left | right
deriving DecidableEq, Repr

structure Pos where
  x : Rat
  y : Rat
deriving DecidableEq, Repr

structure TrafficLight where
  id : String
  pos : Pos
  direction : Direction
  state : LightState
  timer : Rat
deriving DecidableEq, Repr

/-- Vehicles carry a cosmetic `color` field in the source; the spec excludes
it from core semantics and no simulation logic reads it, so it is omitted. -/
structure Vehicle where
  id : String
  vtype : VehicleType
  pos : Pos
  direction : Direction
  lane : Lane
  speed : Rat
  waitTime : Rat
deriving DecidableEq, Repr

structure TrafficDensity where
  north : Rat
  south : Rat
  east : Rat
  west : Rat
deriving DecidableEq, Repr

/-- Statistics record.  `trafficDensity` exists in the `part_004` iteration
(the first `simulator.ts` iteration never reads or writes it). -/
structure Statistics where
  totalVehicles : Nat
  averageWaitTime : Rat
  throughput : Rat
  trafficDensity : TrafficDensity
deriving DecidableEq, Repr

structure AiParams where
  greenDuration : Rat
  yellowDuration : Rat
  adaptiveThreshold : Rat
deriving DecidableEq, Repr

structure Config where
  spawnRate : Rat
  simulationSpeed : Rat
  aiController : String
  aiParams : AiParams
deriving DecidableEq, Repr

structure SimulationState where
  vehicles : List Vehicle
  trafficLights : List TrafficLight
  time : Rat
  statistics : Statistics
  config : Config
deriving DecidableEq, Repr

/-- `['north', 'south'].includes(light.direction)` -/
def Direction.isNS : Direction → Bool
  | .north => true
  | .south => true
  | _ => false

/-- `['east', 'west'].includes(light.direction)` -/
def Direction.isEW : Direction → Bool
  | .east => true
  | .west => true
  | _ => false

def LightState.isGreen : LightState → Bool
  | .green => true
  | _ => false

def LightState.isYellow : LightState → Bool
  | .yellow => true
  | _ => false

def LightState.isRed : LightState → Bool
  | .red => true
  | _ => false

/-- `state.trafficLights.some(l => ['north','south'].includes(l.direction) && l.state === 'green')` -/
def nsGreenB (ls : List TrafficLight) : Bool :=
  ls.any fun l => l.direction.isNS && l.state.isGreen

def ewGreenB (ls : List TrafficLight) : Bool :=
  ls.any fun l => l.direction.isEW && l.state.isGreen

/-- `newState.trafficLights.some(light => light.state === 'green')` -/
def anyGreenB (ls : List TrafficLight) : Bool :=
  ls.any fun l => l.state.isGreen

/-! ## Fixed timing controller (`FixedTimingController.update`)

JavaScript `%` truncates toward zero; for the nonnegative timers produced
by the simulation it agrees with `a - m * ⌊a / m⌋`, which is how it is
embedded here. -/

def jsMod (a m : Rat) : Rat := a - m * (⌊a / m⌋ : ℤ)

/-- The light state `FixedTimingController.update` assigns to a light of
direction `dir` whose (already incremented) timer is `t`. -/
def fixedNewLightState (p : AiParams) (dir : Direction) (t : Rat) : LightState :=
  let totalCycleDuration := (p.greenDuration + p.yellowDuration) * 2
  if dir.isNS then
    if jsMod t totalCycleDuration < p.greenDuration then .green
    else if jsMod t totalCycleDuration < p.greenDuration + p.yellowDuration then .yellow
    else .red
  else
    if jsMod t totalCycleDuration < p.greenDuration then .red
    else if jsMod t totalCycleDuration < p.greenDuration + p.yellowDuration then .red
    else if jsMod t totalCycleDuration < 2 * p.greenDuration + p.yellowDuration then .green
    else .yellow

def fixedUpdate (s : SimulationState) (dt : Rat) : SimulationState :=
  { s with trafficLights := s.trafficLights.map fun l =>
      { l with timer := l.timer + dt
               state := fixedNewLightState s.config.aiParams l.direction (l.timer + dt) } }

/-! ## Adaptive controller (`AdaptiveController`, first `simulator.ts` iteration)

The class's private mutable fields become the explicitly threaded
`AdaptiveState`.  The constants of the class: `maxHistoryLength = 10`,
`minGreenTime = 3`, and the local `maxWaitTime = 20`. -/

structure AdaptiveState where
  historyNS : List Nat
  historyEW : List Nat
  currentDirectionNS : Bool
  switchTimer : Rat
  lastSwitchTime : Rat
deriving DecidableEq, Repr

def AdaptiveState.init : AdaptiveState :=
  { historyNS := [], historyEW := [], currentDirectionNS := true
    switchTimer := 0, lastSwitchTime := 0 }

/-- `push` followed by `shift` when the history exceeds `maxHistoryLength`. -/
def pushHistory (h : List Nat) (c : Nat) : List Nat :=
  let h1 := h ++ [c]
  if h1.length > 10 then h1.tail else h1

/-- The weighted sums loop of `AdaptiveController.update`: index
`i = length - 1` is weighted `recentWeight = 1.5`, all others `1`.
Returns `(weightedNS, weightedEW, totalWeight)`. -/
def weightedSums (hNS hEW : List Nat) : Rat × Rat × Rat :=
  let n := hNS.length
  (List.range n).foldl
    (fun acc i =>
      let w : Rat := if i = n - 1 then 3 / 2 else 1
      (acc.1 + (hNS.getD i 0 : Nat) * w,
       acc.2.1 + (hEW.getD i 0 : Nat) * w,
       acc.2.2 + w))
    (0, 0, 0)

/-- The switch decision of `AdaptiveController.update` after the timers have
been incremented: the demand path (`avg > avg + 1` buffer, gated by
`switchTimer >= minGreenTime`) followed by the starvation override
(`lastSwitchTime > maxWaitTime` with any opposing traffic).  Returns
`(shouldSwitchToNS, shouldSwitchToEW)`. -/
def adaptiveFlags (nsGreen ewGreen : Bool) (avgNS avgEW : Rat)
    (northSouthCount eastWestCount : Nat) (switchTimer lastSwitchTime : Rat) :
    Bool × Bool :=
  let nsGreaterThanEw := decide (avgNS > avgEW + 1)
  let ewGreaterThanNs := decide (avgEW > avgNS + 1)
  let demand : Bool × Bool :=
    if nsGreen && ewGreaterThanNs && decide (switchTimer ≥ 3) then (false, true)
    else if ewGreen && nsGreaterThanEw && decide (switchTimer ≥ 3) then (true, false)
    else (false, false)
  if ewGreen && decide (lastSwitchTime > 20) && decide (northSouthCount > 0) then
    (true, demand.2)
  else if nsGreen && decide (lastSwitchTime > 20) && decide (eastWestCount > 0) then
    (demand.1, true)
  else demand

/-- The per-light branch of the `trafficLights.map` in
`AdaptiveController.update`.  The timer has already been incremented by
`deltaTime` when the branches run; a taken transition resets it to 0. -/
def adaptiveLightStep (toNS toEW : Bool) (yellowDuration dt : Rat)
    (l : TrafficLight) : TrafficLight :=
  let t := l.timer + dt
  if l.direction.isNS then
    if toEW && l.state.isGreen then { l with state := .yellow, timer := 0 }
    else if l.state.isYellow && decide (t ≥ yellowDuration) then
      { l with state := .red, timer := 0 }
    else if toNS && l.state.isRed then { l with state := .green, timer := 0 }
    else { l with timer := t }
  else
    if toNS && l.state.isGreen then { l with state := .yellow, timer := 0 }
    else if l.state.isYellow && decide (t ≥ yellowDuration) then
      { l with state := .red, timer := 0 }
    else if toEW && l.state.isRed then { l with state := .green, timer := 0 }
    else { l with timer := t }

/-- `AdaptiveController.update`.  The in-map assignments to
`this.switchTimer` / `this.lastSwitchTime` only ever write `0` and are never
read back during the map (the flags are computed beforehand), so their net
effect is: `switchTimer` is zeroed exactly when some light took a switch
transition, `lastSwitchTime` exactly when some light went red → green. -/
def adaptiveUpdate (cs : AdaptiveState) (s : SimulationState) (dt : Rat) :
    AdaptiveState × SimulationState :=
  let yellowDuration := s.config.aiParams.yellowDuration
  let northSouthCount := s.vehicles.countP fun v => v.direction.isNS
  let eastWestCount := s.vehicles.countP fun v => v.direction.isEW
  let hNS := pushHistory cs.historyNS northSouthCount
  let hEW := pushHistory cs.historyEW eastWestCount
  let sums := weightedSums hNS hEW
  let avgNS := sums.1 / sums.2.2
  let avgEW := sums.2.1 / sums.2.2
  let switchTimer := cs.switchTimer + dt
  let lastSwitchTime := cs.lastSwitchTime + dt
  let nsGreen := nsGreenB s.trafficLights
  let ewGreen := ewGreenB s.trafficLights
  let flags := adaptiveFlags nsGreen ewGreen avgNS avgEW
    northSouthCount eastWestCount switchTimer lastSwitchTime
  let lights1 := s.trafficLights.map (adaptiveLightStep flags.1 flags.2 yellowDuration dt)
  let redToGreenHappened :=
    (flags.1 && s.trafficLights.any fun l => l.direction.isNS && l.state.isRed) ||
    (flags.2 && s.trafficLights.any fun l => l.direction.isEW && l.state.isRed)
  let switchHappened :=
    (flags.2 && s.trafficLights.any fun l => l.direction.isNS && l.state.isGreen) ||
    (flags.1 && s.trafficLights.any fun l => l.direction.isEW && l.state.isGreen) ||
    redToGreenHappened
  let switchTimer2 := if switchHappened then 0 else switchTimer
  let lastSwitchTime2 := if redToGreenHappened then 0 else lastSwitchTime
  if anyGreenB lights1 then
    ({ historyNS := hNS, historyEW := hEW
       currentDirectionNS := cs.currentDirectionNS
       switchTimer := switchTimer2, lastSwitchTime := lastSwitchTime2 },
     { s with trafficLights := lights1 })
  else
    let dirNS := decide (avgNS ≥ avgEW)
    let lights2 := lights1.map fun l =>
      if (dirNS && l.direction.isNS) || (!dirNS && l.direction.isEW) then
        { l with state := .green, timer := 0 }
      else l
    ({ historyNS := hNS, historyEW := hEW
       currentDirectionNS := dirNS
       switchTimer := 0, lastSwitchTime := 0 },
     { s with trafficLights := lights2 })

/-! ## Vehicle kinematics (`updateVehicles`, `isVehicleAtTrafficLight`,
`isVehicleAhead`, first `simulator.ts` iteration) -/

/-- `isVehicleAtTrafficLight`: stop-line capture zones per direction plus the
intersection-box fallback.  Returns `(atLight, lightState)`. -/
def isVehicleAtTrafficLight (v : Vehicle) (lights : List TrafficLight) :
    Bool × LightState :=
  match lights.find? fun l => l.direction = v.direction with
  | none => (false, .green)
  | some light =>
    let atStopLine :=
      match v.direction with
      | .north => decide (v.pos.y ≥ 260) && decide (v.pos.y ≤ 270)
      | .south => decide (v.pos.y ≥ 130) && decide (v.pos.y ≤ 140)
      | .east => decide (v.pos.x ≥ 230) && decide (v.pos.x ≤ 240)
      | .west => decide (v.pos.x ≥ 360) && decide (v.pos.x ≤ 370)
    if atStopLine then (true, light.state)
    else if decide (|v.pos.x - 300| < 50) && decide (|v.pos.y - 200| < 50) then
      (true, light.state)
    else (false, .green)

/-- `const safeDistance = (vehicle.type === 'car' ? 20 : 30) + 5` — the
threshold depends only on the follower's own type. -/
def safeDistance (v : Vehicle) : Rat :=
  (if v.vtype = .car then (20 : Rat) else 30) + 5

/-- The per-candidate test inside `isVehicleAhead`'s `vehicles.some(...)`. -/
def aheadGate (v u : Vehicle) : Bool :=
  if u.id = v.id then false
  else if u.direction ≠ v.direction then false
  else if u.lane ≠ v.lane then false
  else
    match v.direction with
    | .north =>
      if u.pos.y ≥ v.pos.y then false else decide (v.pos.y - u.pos.y < safeDistance v)
    | .south =>
      if u.pos.y ≤ v.pos.y then false else decide (u.pos.y - v.pos.y < safeDistance v)
    | .east =>
      if u.pos.x ≤ v.pos.x then false else decide (u.pos.x - v.pos.x < safeDistance v)
    | .west =>
      if u.pos.x ≥ v.pos.x then false else decide (v.pos.x - u.pos.x < safeDistance v)

def isVehicleAhead (v : Vehicle) (vehicles : List Vehicle) : Bool :=
  vehicles.any (aheadGate v)

/-- Position translation of the movement `switch` in `updateVehicles`. -/
def movePos (p : Pos) (d : Direction) (delta : Rat) : Pos :=
  match d with
  | .north => { p with y := p.y - delta }
  | .south => { p with y := p.y + delta }
  | .east => { p with x := p.x + delta }
  | .west => { p with x := p.x - delta }

def inBounds (p : Pos) : Bool :=
  decide (p.x ≥ 0) && decide (p.x ≤ 600) && decide (p.y ≥ 0) && decide (p.y ≤ 400)

/-- `updateVehicles`.  Every vehicle is gated against the pre-tick vehicle
list, as the source's `state.vehicles` reads do (see the `JSHeap` model
below for the object-aliasing behaviour of the same code). -/
def updateVehicles (s : SimulationState) (dt : Rat) : SimulationState :=
  let adjustedDelta := dt * s.config.simulationSpeed
  { s with vehicles :=
      (s.vehicles.map fun v =>
        let atLight := isVehicleAtTrafficLight v s.trafficLights
        if atLight.1 && atLight.2.isRed then
          { v with waitTime := v.waitTime + adjustedDelta }
        else if isVehicleAhead v s.vehicles then
          { v with waitTime := v.waitTime + adjustedDelta }
        else
          { v with pos := movePos v.pos v.direction (v.speed * adjustedDelta) }
      ).filter fun v => inBounds v.pos }

/-! ## Spawning and statistics (`spawnVehicles`, `updateStatistics`,
first `simulator.ts` iteration) -/

/-- One `Math.random()` draw per random decision of a tick, in source
order.  Each roll ranges over `[0, 1)`. -/
structure Oracle where
  exploreRoll : Rat
  actionRoll : Rat
  replayRolls : List Rat
  spawnRoll : Rat
  dirRoll : Rat
  typeRoll : Rat
  laneRoll : Rat
  vehId : String
deriving Repr

/-- An oracle for ticks in which the spawn draw fails
(`Math.random() > spawnChance` holds whenever `spawnChance < 9/10`). -/
def Oracle.noSpawn : Oracle :=
  { exploreRoll := 0, actionRoll := 0, replayRolls := [], spawnRoll := 9 / 10
    dirRoll := 0, typeRoll := 0, laneRoll := 0, vehId := "v" }

/-- `directions[Math.floor(Math.random() * directions.length)]` -/
def rollIndex (roll : Rat) (len : Nat) : Nat :=
  (⌊roll * len⌋).toNat

def spawnVehicles (o : Oracle) (s : SimulationState) (dt : Rat) : SimulationState :=
  let spawnChance := s.config.spawnRate * dt * s.config.simulationSpeed
  if o.spawnRoll > spawnChance then s
  else
    let direction := [Direction.north, .south, .east, .west].getD (rollIndex o.dirRoll 4) .north
    let vtype := if o.typeRoll > 4 / 5 then VehicleType.truck else .car
    let lane := if o.laneRoll > 1 / 2 then Lane.left else .right
    let position : Pos :=
      match direction with
      | .north => { x := if lane = .left then 280 else 300, y := 400 }
      | .south => { x := if lane = .left then 320 else 340, y := 0 }
      | .east => { x := 0, y := if lane = .left then 180 else 200 }
      | .west => { x := 600, y := if lane = .left then 200 else 220 }
    let newVehicle : Vehicle :=
      { id := o.vehId, vtype := vtype, pos := position, direction := direction
        lane := lane, speed := if vtype = .car then 40 else 30, waitTime := 0 }
    { s with vehicles := s.vehicles ++ [newVehicle]
             statistics := { s.statistics with totalVehicles := s.statistics.totalVehicles + 1 } }

def sumWaitTime (vs : List Vehicle) : Rat :=
  vs.foldl (fun acc v => acc + v.waitTime) 0

/-- `updateStatistics`, first iteration:
`throughput = Math.floor(totalVehicles * 0.8 - averageWaitTime * 0.1)`. -/
def updateStatistics (s : SimulationState) : SimulationState :=
  let averageWaitTime :=
    if s.vehicles.length > 0 then sumWaitTime s.vehicles / s.vehicles.length else 0
  { s with statistics :=
      { s.statistics with
          averageWaitTime := averageWaitTime
          throughput :=
            ((⌊(s.statistics.totalVehicles : Rat) * (4 / 5) - averageWaitTime * (1 / 10)⌋ : ℤ) : Rat) } }

/-! ## Reinforcement-learning controller (`ReinforcementLearningController`,
`part_004` iteration)

The weighted-density weight `Math.exp(-0.008 * sqrt(dx² + dy²))` (floored at
`0.2` beyond 200px) is transcendental, so it is abstracted as a parameter
`w : Pos → Rat` giving each vehicle position its weight; likewise
`Math.pow(averageWaitTime, 1.5)` in the reward is abstracted as
`pow15 : Rat → Rat`.  Every theorem below is independent of both (the claims
it settles evaluate them on empty vehicle lists and zero wait times only). -/

structure RLState where
  lastStateKey : String
  lastAction : String
  qValues : List (String × List (String × Rat))
  stateHistory : List (String × String × Rat)
  updateCounter : Nat
  rewardHistory : List Rat
deriving DecidableEq, Repr

def RLState.init : RLState :=
  { lastStateKey := "", lastAction := "", qValues := [], stateHistory := []
    updateCounter := 0, rewardHistory := [] }

/-- `calculateWeightedTrafficDensity` with the distance weight abstracted. -/
def calculateWeightedTrafficDensity (w : Pos → Rat) (vs : List Vehicle) :
    TrafficDensity :=
  vs.foldl
    (fun d v =>
      match v.direction with
      | .north => { d with north := d.north + w v.pos }
      | .south => { d with south := d.south + w v.pos }
      | .east => { d with east := d.east + w v.pos }
      | .west => { d with west := d.west + w v.pos })
    { north := 0, south := 0, east := 0, west := 0 }

def discretizeTraffic (count : Rat) : String :=
  if count < 3 / 2 then "low" else if count < 4 then "medium" else "high"

def discretizeTime (time : Rat) : String :=
  if time < 5 then "short" else if time < 15 then "medium" else "long"

def maxLightTimer (ls : List TrafficLight) : Rat :=
  ls.foldl (fun m l => max m l.timer) 0

/-- `ReinforcementLearningController.getCurrentState` (`part_004`). -/
def rlGetCurrentState (w : Pos → Rat) (s : SimulationState) : String :=
  let td := calculateWeightedTrafficDensity w s.vehicles
  let nsLevel := discretizeTraffic (td.north + td.south)
  let ewLevel := discretizeTraffic (td.east + td.west)
  let phase := if nsGreenB s.trafficLights then "ns" else "ew"
  let dur := discretizeTime (maxLightTimer s.trafficLights)
  nsLevel ++ "_" ++ ewLevel ++ "_" ++ phase ++ "_" ++ dur

def rlGetAvailableActions (s : SimulationState) : List String :=
  if nsGreenB s.trafficLights then ["maintain_ns", "extend_ns", "switch_to_ew"]
  else ["maintain_ew", "extend_ew", "switch_to_ns"]

/-- `Object` lookup on the Q-value table. -/
def qStateLookup (q : List (String × List (String × Rat))) (k : String) :
    Option (List (String × Rat)) :=
  q.lookup k

def qActionValue (acts : List (String × Rat)) (a : String) : Rat :=
  (acts.lookup a).getD 0

/-- The initialization in `selectAction`: if the state key is absent, insert
an entry mapping every available action to `0`. -/
def qEnsureState (q : List (String × List (String × Rat))) (k : String)
    (actions : List String) : List (String × List (String × Rat)) :=
  match qStateLookup q k with
  | some _ => q
  | none => (k, actions.map fun a => (a, 0)) :: q

/-- The exploitation loop of `selectAction`: first action wins ties, a
strictly larger Q-value replaces the best. -/
def bestAction (acts : List (String × Rat)) (available : List String) : String :=
  let first := available.getD 0 ""
  (available.foldl
    (fun best a =>
      if qActionValue acts a > best.2 then (a, qActionValue acts a) else best)
    (first, qActionValue acts first)).1

/-- `selectAction` (`part_004`): decaying exploration
`max(0.05, explorationRate * (1 - time/500))` against the explore roll,
random index from the action roll, otherwise arg-max. -/
def rlSelectAction (cs : RLState) (stateKey : String) (available : List String)
    (time : Rat) (exploreRoll actionRoll : Rat) : RLState × String :=
  let q := qEnsureState cs.qValues stateKey available
  let cs1 := { cs with qValues := q }
  let effectiveExplorationRate := max (1 / 20) ((1 / 5) * (1 - time / 500))
  if exploreRoll < effectiveExplorationRate then
    (cs1, available.getD (rollIndex actionRoll available.length) "")
  else
    (cs1, bestAction ((qStateLookup q stateKey).getD []) available)

/-- `applyAction` (`part_004`).  `action.includes('maintain')` and
`action.includes('extend')` are substring tests; on the five action names
the controller emits (`maintain_ns`, `maintain_ew`, `extend_ns`,
`extend_ew`, `switch_to_*`) they coincide with the equality tests below. -/
def rlApplyAction (s : SimulationState) (action : String) : SimulationState :=
  let nsGreen := nsGreenB s.trafficLights
  let ewGreen := ewGreenB s.trafficLights
  if action = "maintain_ns" ∨ action = "maintain_ew" then s
  else if action = "extend_ns" ∨ action = "extend_ew" then
    { s with trafficLights := s.trafficLights.map fun l =>
        if l.state.isGreen then { l with timer := min l.timer 2 } else l }
  else if action = "switch_to_ew" && nsGreen then
    { s with trafficLights := s.trafficLights.map fun l =>
        if l.direction.isNS && l.state.isGreen then
          { l with state := .yellow, timer := 0 }
        else l }
  else if action = "switch_to_ns" && ewGreen then
    { s with trafficLights := s.trafficLights.map fun l =>
        if l.direction.isEW && l.state.isGreen then
          { l with state := .yellow, timer := 0 }
        else l }
  else s

/-- `calculateReward` (`part_004`), with `Math.pow(·, 1.5)` abstracted. -/
def rlCalculateReward (pow15 : Rat → Rat) (s : SimulationState) : Rat :=
  let nearbyVehicles := (s.vehicles.filter fun v =>
    decide ((v.pos.x - 300) * (v.pos.x - 300) + (v.pos.y - 200) * (v.pos.y - 200) < 10000)).length
  s.statistics.throughput * 2 - s.statistics.averageWaitTime * (4 / 5)
    - (nearbyVehicles : Rat) * (1 / 2)
    - pow15 s.statistics.averageWaitTime * (1 / 50)

/-- `Math.max(...Object.values(...))` over a Q-value entry.  The source only
reaches this with non-empty entries; the `[]` case is unreachable. -/
def maxActionValue : List (String × Rat) → Rat
  | [] => 0
  | (_, v) :: rest => rest.foldl (fun m p => max m p.2) v

def qSetValue (q : List (String × List (String × Rat))) (k : String)
    (a : String) (v : Rat) : List (String × List (String × Rat)) :=
  q.map fun p =>
    if p.1 = k then
      (p.1, if (p.2.lookup a).isSome
            then p.2.map fun e => if e.1 = a then (e.1, v) else e
            else p.2 ++ [(a, v)])
    else p

/-- `ReinforcementLearningController.updateQValues` (`part_004`):
`learningRate = 0.1`, `discountFactor = 0.9`. -/
def rlUpdateQValues (q : List (String × List (String × Rat)))
    (stateKey action : String) (reward : Rat) (nextStateKey : String) :
    List (String × List (String × Rat)) :=
  let q1 := match qStateLookup q stateKey with
    | some _ => q
    | none => (stateKey, []) :: q
  let q2 := if qActionValue ((qStateLookup q1 stateKey).getD []) action = 0
    then qSetValue q1 stateKey action 0
    else q1
  let maxNextQ := match qStateLookup q2 nextStateKey with
    | some acts => maxActionValue acts
    | none => 0
  let oldValue := qActionValue ((qStateLookup q2 stateKey).getD []) action
  qSetValue q2 stateKey action
    (oldValue + (1 / 10) * (reward + (9 / 10) * maxNextQ - oldValue))

/-- The experience-replay loop (`5` samples drawn when `updateCounter`
reaches `batchUpdateSize = 10` and more than `10` transitions are stored). -/
def rlReplay (cs : RLState) (currentStateKey : String) (rolls : List Rat) : RLState :=
  (List.range 5).foldl
    (fun acc i =>
      let len := acc.stateHistory.length
      let randomIndex := rollIndex (rolls.getD i 0) len
      match acc.stateHistory.getD randomIndex ("", "", 0) with
      | (st, a, r) =>
        let nextKey :=
          if randomIndex < len - 1 then
            (acc.stateHistory.getD (randomIndex + 1) ("", "", 0)).1
          else currentStateKey
        { acc with qValues := rlUpdateQValues acc.qValues st a r nextKey })
    cs

/-- The late-tick timing pass of `part_004`'s RL `update`: only
yellow → red is forced, strictly after `yellowDuration`. -/
def rlTimingStep (yellowDuration dt : Rat) (l : TrafficLight) : TrafficLight :=
  let t := l.timer + dt
  if l.state.isYellow && decide (t > yellowDuration) then
    { l with state := .red, timer := 0 }
  else { l with timer := t }

/-- The Q-table / history bookkeeping of `part_004`'s RL `update` between
the reward computation and the timing pass. -/
def rlBookkeeping (cs1 : RLState) (reward : Rat) (currentStateKey : String)
    (selectedAction : String) (replayRolls : List Rat) : RLState :=
  let cs2 : RLState := { cs1 with rewardHistory := cs1.rewardHistory ++ [reward] }
  let cs3 : RLState :=
    if cs2.lastStateKey ≠ "" && cs2.lastAction ≠ "" then
      let q := rlUpdateQValues cs2.qValues cs2.lastStateKey cs2.lastAction reward currentStateKey
      let hist := cs2.stateHistory ++ [(cs2.lastStateKey, cs2.lastAction, reward)]
      { cs2 with qValues := q
                 stateHistory := if hist.length > 100 then hist.tail else hist }
    else cs2
  let cs4 : RLState := { cs3 with updateCounter := cs3.updateCounter + 1 }
  let cs5 : RLState :=
    if cs4.updateCounter ≥ 10 && cs4.stateHistory.length > 10 then
      { rlReplay cs4 currentStateKey replayRolls with updateCounter := 0 }
    else cs4
  { cs5 with lastStateKey := currentStateKey, lastAction := selectedAction }

/-- The two yellow-to-red consistency passes of `part_004`'s RL `update`:
whenever some NS light sits at `red` with a just-reset timer, the whole EW
axis is forced green, and symmetrically. -/
def rlConsistencyPass (lights1 : List TrafficLight) : List TrafficLight :=
  let nsYellowToRed := lights1.any fun l =>
    l.direction.isNS && l.state.isRed && decide (l.timer = 0)
  let ewYellowToRed := lights1.any fun l =>
    l.direction.isEW && l.state.isRed && decide (l.timer = 0)
  let lights2 :=
    if nsYellowToRed then
      lights1.map fun l =>
        if l.direction.isEW then { l with state := .green, timer := 0 } else l
    else lights1
  if ewYellowToRed then
    lights2.map fun l =>
      if l.direction.isNS then { l with state := .green, timer := 0 } else l
  else lights2

/-- The final no-green safety fallback of `part_004`'s RL `update`, fed the
`north` and `east` density components (see `rlUpdate`'s doc comment). -/
def rlFallbackPass (td : TrafficDensity) (lights3 : List TrafficLight) :
    List TrafficLight :=
  if anyGreenB lights3 then lights3
  else
    let dirNS := decide (td.north ≥ td.east)
    lights3.map fun l =>
      if (dirNS && l.direction.isNS) || (!dirNS && l.direction.isEW) then
        { l with state := .green, timer := 0 }
      else l

/-- `ReinforcementLearningController.update` (`part_004`).  In the final
fallback the source computes
`td?.north ?? 0 + td?.south ?? 0` — by `??`/`+` precedence this evaluates
to `td.north` alone whenever `trafficDensity` is set (and it always is, a
few lines earlier), and symmetrically `td.east`; embedded accordingly. -/
def rlUpdate (w : Pos → Rat) (pow15 : Rat → Rat) (o : Oracle) (cs : RLState)
    (s : SimulationState) (dt : Rat) : RLState × SimulationState :=
  let yellowDuration := s.config.aiParams.yellowDuration
  let currentStateKey := rlGetCurrentState w s
  let availableActions := rlGetAvailableActions s
  let sel := rlSelectAction cs currentStateKey availableActions s.time
    o.exploreRoll o.actionRoll
  let selectedAction := sel.2
  let s1 := rlApplyAction s selectedAction
  let td := calculateWeightedTrafficDensity w s.vehicles
  let s2 : SimulationState :=
    { s1 with statistics := { s1.statistics with trafficDensity := td } }
  let reward := rlCalculateReward pow15 s
  let cs6 := rlBookkeeping sel.1 reward currentStateKey selectedAction o.replayRolls
  let lights1 := s2.trafficLights.map (rlTimingStep yellowDuration dt)
  let lights4 := rlFallbackPass td (rlConsistencyPass lights1)
  (cs6, { s2 with trafficLights := lights4 })

/-! ## Controller dispatch and the simulation stepper
(`getControllerByType`, `updateSimulation`, `createInitialState`) -/

inductive ControllerKind
  | fixed | adaptive | reinforcement
deriving DecidableEq, Repr

/-- `getControllerByType`: `switch` on the controller string, with `'fixed'`
and the `default` branch both yielding the fixed-timing controller. -/
def getControllerByType (t : String) : ControllerKind :=
  if t = "adaptive" then .adaptive
  else if t = "reinforcement" then .reinforcement
  else .fixed

/-- One tick with an explicitly chosen controller.  `updateSimulation`
constructs a brand-new controller object through `getControllerByType` on
every call, so each controller starts from its freshly-constructed state
(`AdaptiveState.init` / `RLState.init`) and its post-tick state is
discarded. -/
def updateSimulationKind (k : ControllerKind) (w : Pos → Rat) (pow15 : Rat → Rat)
    (o : Oracle) (s : SimulationState) (dt : Rat) : SimulationState :=
  let s1 :=
    match k with
    | .fixed => fixedUpdate s dt
    | .adaptive => (adaptiveUpdate AdaptiveState.init s dt).2
    | .reinforcement => (rlUpdate w pow15 o RLState.init s dt).2
  let s2 := updateVehicles s1 dt
  let s3 := spawnVehicles o s2 dt
  let s4 := updateStatistics s3
  { s4 with time := s4.time + dt }

/-- `updateSimulation(state, deltaTime)`. -/
def updateSimulation (w : Pos → Rat) (pow15 : Rat → Rat) (o : Oracle)
    (s : SimulationState) (dt : Rat) : SimulationState :=
  updateSimulationKind (getControllerByType s.config.aiController) w pow15 o s dt

/-- The tick as the spec intends it (§9, "Open question"): a single
`AdaptiveController` instance persists across ticks, so its rolling history
and switch timers are threaded from one call of `update` to the next
instead of being recreated fresh. -/
def updateSimulationAdaptivePersistent (o : Oracle) (cs : AdaptiveState)
    (s : SimulationState) (dt : Rat) : AdaptiveState × SimulationState :=
  let r := adaptiveUpdate cs s dt
  let s2 := updateVehicles r.2 dt
  let s3 := spawnVehicles o s2 dt
  let s4 := updateStatistics s3
  (r.1, { s4 with time := s4.time + dt })

/-- `createInitialState`. -/
def createInitialState : SimulationState :=
  { vehicles := []
    trafficLights :=
      [ { id := "light-north", pos := { x := 295, y := 195 }
          direction := .north, state := .red, timer := 0 },
        { id := "light-south", pos := { x := 335, y := 235 }
          direction := .south, state := .red, timer := 0 },
        { id := "light-east", pos := { x := 335, y := 195 }
          direction := .east, state := .green, timer := 0 },
        { id := "light-west", pos := { x := 295, y := 235 }
          direction := .west, state := .green, timer := 0 } ]
    time := 0
    statistics :=
      { totalVehicles := 0, averageWaitTime := 0, throughput := 0
        trafficDensity := { north := 0, south := 0, east := 0, west := 0 } }
    config :=
      { spawnRate := 3 / 10, simulationSpeed := 1, aiController := "fixed"
        aiParams := { greenDuration := 20, yellowDuration := 5
                      adaptiveThreshold := 3 / 2 } } }

/-! ## Object-aliasing model of `updateVehicles` (`JSHeap`)

`updateVehicles` copies each vehicle with a spread (`{ ...vehicle }`), which
copies the *reference* to the `position` object, and then mutates that
object in place (`newVehicle.position.y -= ...`).  To capture this, position
objects live in an explicit store indexed by reference, each vehicle holds a
`posRef`, and the sequential `map` of the source becomes a fold that threads
the store — so in-place moves performed for earlier vehicles are visible to
the gating checks of later ones, exactly as in JavaScript. -/

namespace JSHeap

/-- The store of JavaScript `position` objects. -/
abbrev Heap := List Pos

/-- A vehicle record whose `position` field is a reference into the heap. -/
structure HVehicle where
  id : String
  vtype : VehicleType
  posRef : Nat
  direction : Direction
  lane : Lane
  speed : Rat
  waitTime : Rat
deriving DecidableEq, Repr

def readPos (h : Heap) (r : Nat) : Pos := h.getD r { x := 0, y := 0 }

def writePos (h : Heap) (r : Nat) (p : Pos) : Heap := h.set r p

def HVehicle.asVehicle (h : Heap) (v : HVehicle) : Vehicle :=
  { id := v.id, vtype := v.vtype, pos := readPos h v.posRef
    direction := v.direction, lane := v.lane, speed := v.speed
    waitTime := v.waitTime }

/-- `updateVehicles` over the explicit store.  The `map` body runs left to
right; a vehicle that moves writes through its position reference, so the
input vehicle's `position` object is updated in place. -/
def updateVehiclesJS (lights : List TrafficLight) (cfg : Config) (h : Heap)
    (vs : List HVehicle) (dt : Rat) : Heap × List HVehicle :=
  let adjustedDelta := dt * cfg.simulationSpeed
  let step := vs.foldl
    (fun (acc : Heap × List HVehicle) v =>
      let hv := v.asVehicle acc.1
      let atLight := isVehicleAtTrafficLight hv lights
      if atLight.1 && atLight.2.isRed then
        (acc.1, acc.2 ++ [{ v with waitTime := v.waitTime + adjustedDelta }])
      else if isVehicleAhead hv (vs.map (HVehicle.asVehicle acc.1)) then
        (acc.1, acc.2 ++ [{ v with waitTime := v.waitTime + adjustedDelta }])
      else
        (writePos acc.1 v.posRef
           (movePos hv.pos v.direction (v.speed * adjustedDelta)),
         acc.2 ++ [v]))
    (h, [])
  (step.1, step.2.filter fun v => inBounds (readPos step.1 v.posRef))

end JSHeap

/-! ## Standalone Q-table (`part_009`, `qlearning.ts`) -/

namespace QL

/-- `type Action = 'stay' | 'switch'`. -/
inductive Action
  | stay | switch
deriving DecidableEq, Repr

/-- A Q-table row `{ stay: number, switch: number }`. -/
structure QEntry where
  stay : Rat
  switch : Rat
deriving DecidableEq, Repr

/-- `type QTable = Record<string, Record<Action, number>>`; rows are created
whole (`{ stay: 0, switch: 0 }`), so the table is an association list of
complete rows. -/
abbrev QTable := List (String × QEntry)

/-- JavaScript object lookup `Q[key]` over the association-list table. -/
def lookupRow : QTable → String → Option QEntry
  | [], _ => none
  | p :: t, k => if k = p.1 then some p.2 else lookupRow t k

def containsKey (q : QTable) (k : String) : Bool := (lookupRow q k).isSome

def entryOf (q : QTable) (k : String) : QEntry :=
  (lookupRow q k).getD { stay := 0, switch := 0 }

def QEntry.get (e : QEntry) : Action → Rat
  | .stay => e.stay
  | .switch => e.switch

def QEntry.set (e : QEntry) (a : Action) (v : Rat) : QEntry :=
  match a with
  | .stay => { e with stay := v }
  | .switch => { e with switch := v }

def getVal (q : QTable) (k : String) (a : Action) : Rat := (entryOf q k).get a

/-- `Math.max(Q[nextKey].stay, Q[nextKey].switch)`. -/
def maxVal (q : QTable) (k : String) : Rat :=
  max (entryOf q k).stay (entryOf q k).switch

def ensure (q : QTable) (k : String) : QTable :=
  if containsKey q k then q else q ++ [(k, { stay := 0, switch := 0 })]

def setVal (q : QTable) (k : String) (a : Action) (v : Rat) : QTable :=
  q.map fun p => if p.1 = k then (p.1, p.2.set a v) else p

/-- `updateQTable(prevKey, action, reward, nextKey)` with `alpha = 0.1` and
`gamma = 0.9`. -/
def updateQTable (q : QTable) (prevKey : String) (action : Action)
    (reward : Rat) (nextKey : String) : QTable :=
  let q1 := ensure q prevKey
  let q2 := ensure q1 nextKey
  let oldValue := getVal q2 prevKey action
  let nextMax := maxVal q2 nextKey
  setVal q2 prevKey action
    (oldValue + (1 / 10) * (reward + (9 / 10) * nextMax - oldValue))

/-- Repeated application of the identical transition
`(prevKey, action, reward, nextKey)`. -/
def iterQ (q0 : QTable) (prevKey : String) (action : Action) (reward : Rat)
    (nextKey : String) : Nat → QTable
  | 0 => q0
  | n + 1 => updateQTable (iterQ q0 prevKey action reward nextKey n) prevKey action reward nextKey

/-- The Bellman residual `|Q(s,a) - (r + γ·max Q(s',·))|` after `n`
identical updates, with the target taken at the initial table. -/
def residual (q0 : QTable) (prevKey : String) (action : Action) (reward : Rat)
    (nextKey : String) (n : Nat) : Rat :=
  |getVal (iterQ q0 prevKey action reward nextKey n) prevKey action
    - (reward + (9 / 10) * maxVal q0 nextKey)|

end QL

/-! ## Concrete runs used by the theorems -/

/-- Weight instantiation for runs with no vehicles (`calculateWeightedTrafficDensity`
never applies the weight to anything on an empty vehicle list). -/
def zeroWeight : Pos → Rat := fun _ => 0

/-- Instantiation of `Math.pow(·, 1.5)` agreeing with it at `0`, the only
point the concrete runs evaluate it at. -/
def zeroPow : Rat → Rat := fun _ => 0

/-- An oracle whose explore roll `0` is below every effective exploration
rate (the rate is floored at `0.05`), whose action roll `0.9` selects the
third available action (`Math.floor(0.9 * 3) = 2`), and whose spawn roll
`0.9` fails the spawn draw at the default `spawnChance ≤ 0.3 · dt`. -/
def exploreThirdAction : Oracle :=
  { exploreRoll := 0, actionRoll := 9 / 10, replayRolls := [], spawnRoll := 9 / 10
    dirRoll := 0, typeRoll := 0, laneRoll := 0, vehId := "v" }

/-- `createInitialState` reconfigured to the reinforcement controller. -/
def rlStart : SimulationState :=
  { createInitialState with config :=
      { createInitialState.config with aiController := "reinforcement" } }

/-- Tick 1 of the mutual-exclusion run: the explored action `switch_to_ns`
turns the green EW axis yellow; with no green light left, the fallback
forces NS green, leaving NS green while EW is still yellow. -/
def rlTick1 : SimulationState :=
  updateSimulation zeroWeight zeroPow exploreThirdAction rlStart 1

/-- Tick 2, with `deltaTime = 6`: the explored action `switch_to_ew` turns
NS yellow, the timing pass then moves both yellow axes (timers 6 and 7)
past `yellowDuration = 5` to red in the same tick, and the two
yellow-to-red consistency passes each force the opposite axis green. -/
def rlTick2 : SimulationState :=
  updateSimulation zeroWeight zeroPow exploreThirdAction rlTick1 6

/-- An east-bound car parked in the east stop-line capture zone
(`230 ≤ x ≤ 240`), so it waits at a red east light without moving. -/
def eastCar (n : String) (x : Rat) : Vehicle :=
  { id := n, vtype := .car, pos := { x := x, y := 180 }, direction := .east
    lane := .right, speed := 40, waitTime := 0 }

/-- Adaptive-controller scenario: NS green, EW red, and three east-bound
cars held at the east stop line, giving a standing east-west demand of 3
against a north-south demand of 0. -/
def adaptiveDemandState : SimulationState :=
  { createInitialState with
      vehicles := [eastCar "a" 232, eastCar "b" 235, eastCar "c" 238]
      trafficLights :=
        [ { id := "light-north", pos := { x := 295, y := 195 }
            direction := .north, state := .green, timer := 0 },
          { id := "light-south", pos := { x := 335, y := 235 }
            direction := .south, state := .green, timer := 0 },
          { id := "light-east", pos := { x := 335, y := 195 }
            direction := .east, state := .red, timer := 0 },
          { id := "light-west", pos := { x := 295, y := 235 }
            direction := .west, state := .red, timer := 0 } ]
      config := { createInitialState.config with aiController := "adaptive" } }

/-- The code's tick (a fresh `AdaptiveController` per call) iterated with
`deltaTime = 1` from `adaptiveDemandState`. -/
def codeTicks : Nat → SimulationState
  | 0 => adaptiveDemandState
  | n + 1 => updateSimulation zeroWeight zeroPow Oracle.noSpawn (codeTicks n) 1

/-- The spec-intended tick (one persistent `AdaptiveController` instance)
iterated with `deltaTime = 1` from the same state. -/
def persistentTicks : Nat → AdaptiveState × SimulationState
  | 0 => (AdaptiveState.init, adaptiveDemandState)
  | n + 1 =>
    updateSimulationAdaptivePersistent Oracle.noSpawn (persistentTicks n).1
      (persistentTicks n).2 1

/-- The fixed-timing tick iterated with `deltaTime = 1` from
`createInitialState` (whose default controller is `'fixed'`). -/
def fixedTicks : Nat → SimulationState
  | 0 => createInitialState
  | n + 1 => updateSimulation zeroWeight zeroPow Oracle.noSpawn (fixedTicks n) 1

/-! ## C1 — signal-group mutual exclusion -/

/-- C1: the claim states that under any configured controller no reachable
tick ever leaves a north/south light green at the same instant as an
east/west light.  The code violates this: starting from
`createInitialState` under the `'reinforcement'` controller, one explored
`switch_to_ns` tick (`deltaTime = 1`) followed by one explored
`switch_to_ew` tick (`deltaTime = 6`) drives both axes through yellow → red
in the same pass, and the two consistency patches then force *all four*
lights green simultaneously. -/
theorem c1_mutual_exclusion_violated :
    nsGreenB rlTick2.trafficLights = true ∧
    ewGreenB rlTick2.trafficLights = true ∧
    rlTick2.trafficLights.map (fun l => l.state) = [.green, .green, .green, .green] := by
  refine ⟨?_, ?_, ?_⟩ <;> decide

/-! ## C2 — yellow-clearance ordering of the adaptive controller -/

/-- C2 counterexample: from `adaptiveDemandState` (north-south green,
east-west red, standing EW demand 3 vs 0), a single adaptive tick with
`deltaTime = 3` issues the demand switch and *in the same tick* turns the
east-west lights green while both north-south lights are still yellow —
the receiving axis does not wait for the releasing axis to become red. -/
theorem c2_receiving_green_during_yellow :
    ewGreenB (updateSimulation zeroWeight zeroPow Oracle.noSpawn adaptiveDemandState 3).trafficLights = true ∧
    ((updateSimulation zeroWeight zeroPow Oracle.noSpawn adaptiveDemandState 3).trafficLights.any
      fun l => l.direction.isNS && l.state.isYellow) = true := by
  refine ⟨?_, ?_⟩ <;> decide

/-! ## C4 — tick purity with respect to the input state -/

/-- C4: the claim states `updateSimulation` leaves the input state, in
particular every vehicle's position object, unchanged.  In the source,
`{ ...vehicle }` copies the *reference* to the shared `position` object and
the movement branch then writes through it.  With a single east-bound car
at `(100, 200)` (away from any light, nothing ahead), one
`updateVehicles` tick of `deltaTime = 1` overwrites the position object the
input vehicle points at: the store cell read through the input vehicle's
reference afterwards holds `(140, 200)`, not the original `(100, 200)`. -/
theorem c4_input_position_mutated :
    JSHeap.readPos
      (JSHeap.updateVehiclesJS createInitialState.trafficLights
        createInitialState.config [{ x := 100, y := 200 }]
        [{ id := "a", vtype := .car, posRef := 0, direction := .east
           lane := .right, speed := 40, waitTime := 0 }] 1).1 0
      = { x := 140, y := 200 } ∧
    JSHeap.readPos [{ x := 100, y := 200 }] 0 = { x := 100, y := 200 } := by
  refine ⟨?_, ?_⟩ <;> decide

/-! ## C5 — persistence of policy state across ticks -/

/-- C5: the claim states the active policy's internal state persists across
consecutive `updateSimulation` calls.  It does not: `updateSimulation`
rebuilds the controller through `getControllerByType` on every call, so the
rolling history and switch timer restart from scratch each tick.  From
`adaptiveDemandState` with `deltaTime = 1`, a persistent
`AdaptiveController` accumulates `switchTimer` to `minGreenTime = 3` and
switches on tick 3 (north-south goes yellow, east-west green); the code's
per-tick-fresh controller never sees `switchTimer` above `1` and is still
holding north-south green with east-west red after the same three ticks. -/
theorem c5_policy_state_not_persistent :
    ((persistentTicks 3).2.trafficLights.any
      fun l => l.direction.isNS && l.state.isYellow) = true ∧
    ewGreenB (persistentTicks 3).2.trafficLights = true ∧
    (codeTicks 3).trafficLights.map (fun l => l.state) = [.green, .green, .red, .red] ∧
    ((codeTicks 3).trafficLights.any
      fun l => l.direction.isNS && l.state.isYellow) = false := by
  refine ⟨?_, ?_, ?_, ?_⟩ <;> decide

/-! ## C6 — self-healing fallback after every tick -/

/-- C6 counterexample: the claim states that after every tick under every
configured controller at least one axis is green.  The fixed-timing
controller runs no fallback at all: after 22 ticks of `deltaTime = 1` from
`createInitialState` (timers at 22, inside north-south's yellow window
`[20, 25)` while east-west is still red), no light is green. -/
theorem c6_fixed_tick_with_no_green :
    anyGreenB (fixedTicks 22).trafficLights = false ∧
    (fixedTicks 22).trafficLights.map (fun l => l.state) = [.yellow, .yellow, .red, .red] := by
  refine ⟨?_, ?_⟩ <;> decide

/-! ## C3 — the fixed-cycle schedule -/

theorem jsMod_nonneg (t : Rat) : 0 ≤ jsMod t 50 := by
  unfold jsMod
  have h : ((⌊t / 50⌋ : ℚ)) ≤ t / 50 := Int.floor_le (t / 50)
  linarith

theorem jsMod_lt (t : Rat) : jsMod t 50 < 50 := by
  unfold jsMod
  have h : t / 50 < (⌊t / 50⌋ : ℚ) + 1 := Int.lt_floor_add_one (t / 50)
  linarith

theorem jsMod_period (t : Rat) : jsMod (t + 50) 50 = jsMod t 50 := by
  unfold jsMod
  have h : (t + 50) / 50 = t / 50 + 1 := by ring
  rw [h, Int.floor_add_one]
  push_cast
  ring

/-- The parameters of the C3 scenario: `greenDuration = 20`,
`yellowDuration = 5` (the defaults of `createInitialState`). -/
def fixedP : AiParams :=
  { greenDuration := 20, yellowDuration := 5, adaptiveThreshold := 3 / 2 }

theorem fixedNS_eq (t : Rat) :
    fixedNewLightState fixedP .north t =
      (if jsMod t 50 < 20 then .green else if jsMod t 50 < 25 then .yellow else .red) := by
  unfold fixedNewLightState fixedP
  norm_num [Direction.isNS]

theorem fixedEW_eq (t : Rat) :
    fixedNewLightState fixedP .east t =
      (if jsMod t 50 < 20 then .red else if jsMod t 50 < 25 then .red
       else if jsMod t 50 < 45 then .green else .yellow) := by
  unfold fixedNewLightState fixedP
  norm_num [Direction.isNS]

/-- C3: with `greenDuration = 20` and `yellowDuration = 5`, the fixed-timing
controller gives the north-south lights green exactly on `[0, 20)`, yellow
exactly on `[20, 25)` and red exactly on `[25, 50)` of each 50-unit cycle of
the light's timer, gives the east-west lights green exactly on `[25, 45)`
(red whenever north-south is green and conversely, so the axes are never
simultaneously green), the schedule is 50-periodic, and after exactly one
full 50-second cycle of 1-second ticks from `createInitialState` the
north-south state again equals the schedule's value at timer `0`. -/
theorem c3_fixed_cycle_schedule :
    (∀ t : Rat,
      (fixedNewLightState fixedP .north t = .green ↔ jsMod t 50 < 20) ∧
      (fixedNewLightState fixedP .north t = .yellow ↔ 20 ≤ jsMod t 50 ∧ jsMod t 50 < 25) ∧
      (fixedNewLightState fixedP .north t = .red ↔ 25 ≤ jsMod t 50) ∧
      (fixedNewLightState fixedP .east t = .green ↔ 25 ≤ jsMod t 50 ∧ jsMod t 50 < 45) ∧
      (fixedNewLightState fixedP .north t = .green →
        fixedNewLightState fixedP .east t = .red) ∧
      (fixedNewLightState fixedP .east t = .green →
        fixedNewLightState fixedP .north t = .red) ∧
      fixedNewLightState fixedP .north (t + 50) = fixedNewLightState fixedP .north t) ∧
    (fixedTicks 50).trafficLights.map (fun l => l.state) =
      [fixedNewLightState fixedP .north 0, fixedNewLightState fixedP .south 0,
       fixedNewLightState fixedP .east 0, fixedNewLightState fixedP .west 0] := by
  constructor
  · intro t
    have hge := jsMod_nonneg t
    have hlt := jsMod_lt t
    have hper : fixedNewLightState fixedP .north (t + 50) =
        fixedNewLightState fixedP .north t := by
      rw [fixedNS_eq, fixedNS_eq, jsMod_period]
    refine ⟨?_, ?_, ?_, ?_, ?_, ?_, hper⟩ <;>
      simp only [fixedNS_eq t, fixedEW_eq t]
    all_goals split_ifs <;> simp_all
    all_goals
      first
      | linarith
      | (intro h; linarith)
  · decide

/-- C3 witness: the schedule facts instantiated at timer 22 (yellow window)
and the periodicity instantiated at 22. -/
theorem c3_witness :
    fixedNewLightState fixedP .north (22 + 50) = fixedNewLightState fixedP .north 22 ∧
    fixedNewLightState fixedP .north 22 = .yellow := by
  refine ⟨(c3_fixed_cycle_schedule.1 22).2.2.2.2.2.2, ?_⟩
  exact ((c3_fixed_cycle_schedule.1 22).2.1).2 (by decide)

/-! ## C7 — the Q-learning update of `part_009` -/

namespace QL

theorem lookupRow_nil (k : String) : lookupRow [] k = none := rfl

theorem lookupRow_cons (p : String × QEntry) (t : QTable) (k : String) :
    lookupRow (p :: t) k = if k = p.1 then some p.2 else lookupRow t k := rfl

theorem lookupRow_append_none (q l : QTable) (k : String)
    (h : lookupRow q k = none) : lookupRow (q ++ l) k = lookupRow l k := by
  induction q with
  | nil => rfl
  | cons p t ih =>
    rw [lookupRow_cons] at h
    by_cases hk : k = p.1
    · rw [if_pos hk] at h; cases h
    · rw [if_neg hk] at h
      rw [List.cons_append, lookupRow_cons, if_neg hk]
      exact ih h

theorem lookupRow_append_some (q l : QTable) (k : String) (e : QEntry)
    (h : lookupRow q k = some e) : lookupRow (q ++ l) k = some e := by
  induction q with
  | nil => cases h
  | cons p t ih =>
    rw [lookupRow_cons] at h
    rw [List.cons_append, lookupRow_cons]
    by_cases hk : k = p.1
    · rw [if_pos hk] at h ⊢; exact h
    · rw [if_neg hk] at h ⊢; exact ih h

/-- `ensure` creates missing rows at their default value, so it never
changes the value any key reads. -/
theorem entryOf_ensure (q : QTable) (k k2 : String) :
    entryOf (ensure q k) k2 = entryOf q k2 := by
  unfold ensure containsKey
  by_cases hc : (lookupRow q k).isSome
  · simp [hc]
  · simp only [hc, Bool.false_eq_true, if_false]
    have hnone : lookupRow q k = none := by
      cases hl : lookupRow q k with
      | none => rfl
      | some e => rw [hl] at hc; simp at hc
    unfold entryOf
    by_cases hk : k2 = k
    · subst hk
      rw [lookupRow_append_none q _ k2 hnone, hnone, lookupRow_cons]
      simp
    · cases hl : lookupRow q k2 with
      | none =>
        rw [lookupRow_append_none q _ k2 hl, lookupRow_cons, if_neg hk,
          lookupRow_nil]
      | some e => rw [lookupRow_append_some q _ k2 e hl]

theorem containsKey_ensure_self (q : QTable) (k : String) :
    containsKey (ensure q k) k = true := by
  unfold ensure containsKey
  by_cases hc : (lookupRow q k).isSome
  · simp [hc]
  · simp only [hc, Bool.false_eq_true, if_false]
    have hnone : lookupRow q k = none := by
      cases hl : lookupRow q k with
      | none => rfl
      | some e => rw [hl] at hc; simp at hc
    rw [lookupRow_append_none q _ k hnone, lookupRow_cons]
    simp

theorem containsKey_ensure_mono (q : QTable) (k k2 : String)
    (h : containsKey q k2 = true) : containsKey (ensure q k) k2 = true := by
  unfold ensure
  by_cases hc : containsKey q k
  · simpa [hc]
  · simp only [hc, Bool.false_eq_true, if_false]
    unfold containsKey at h ⊢
    cases hl : lookupRow q k2 with
    | none => rw [hl] at h; simp at h
    | some e => rw [lookupRow_append_some q _ k2 e hl]; rfl

theorem entryOf_setVal_same (q : QTable) (k : String) (a : Action) (v : Rat)
    (h : containsKey q k = true) :
    entryOf (setVal q k a v) k = (entryOf q k).set a v := by
  induction q with
  | nil => simp [containsKey, lookupRow] at h
  | cons p t ih =>
    by_cases hp : p.1 = k
    · simp only [setVal, List.map_cons, if_pos hp, entryOf, lookupRow_cons,
        if_pos hp.symm, Option.getD_some]
    · have hkp : ¬(k = p.1) := fun hh => hp hh.symm
      simp only [containsKey, lookupRow_cons, if_neg hkp] at h
      simp only [setVal, List.map_cons, if_neg hp, entryOf, lookupRow_cons,
        if_neg hkp]
      simpa [setVal, entryOf] using ih h

theorem entryOf_setVal_other (q : QTable) (k k2 : String) (a : Action) (v : Rat)
    (h : k2 ≠ k) : entryOf (setVal q k a v) k2 = entryOf q k2 := by
  induction q with
  | nil => rfl
  | cons p t ih =>
    by_cases hp : p.1 = k
    · have hk2p : ¬(k2 = p.1) := fun hh => h (hh.trans hp)
      simp only [setVal, List.map_cons, if_pos hp, entryOf, lookupRow_cons,
        if_neg hk2p]
      simpa [setVal, entryOf] using ih
    · by_cases h2 : k2 = p.1
      · simp only [setVal, List.map_cons, if_neg hp, entryOf, lookupRow_cons,
          if_pos h2, Option.getD_some]
      · simp only [setVal, List.map_cons, if_neg hp, entryOf, lookupRow_cons,
          if_neg h2]
        simpa [setVal, entryOf] using ih

theorem QEntry.get_set_same (e : QEntry) (a : Action) (v : Rat) :
    (e.set a v).get a = v := by
  cases a <;> rfl

/-- The value written by one `updateQTable` call: exactly
`oldQ + α · (r + γ · max Q(s',·) − oldQ)` with `α = 0.1`, `γ = 0.9`,
where `oldQ` and the max are read from the incoming table (missing rows
read as zero, matching the initialization in the source). -/
theorem updateQTable_getVal (q : QTable) (s : String) (a : Action) (r : Rat)
    (s' : String) :
    getVal (updateQTable q s a r s') s a
      = getVal q s a + (1 / 10) * (r + (9 / 10) * maxVal q s' - getVal q s a) := by
  unfold updateQTable getVal maxVal
  have h1 : containsKey (ensure (ensure q s) s') s = true :=
    containsKey_ensure_mono _ _ _ (containsKey_ensure_self q s)
  rw [entryOf_setVal_same _ _ _ _ h1, QEntry.get_set_same]
  rw [entryOf_ensure (ensure q s) s' s, entryOf_ensure q s s,
    entryOf_ensure (ensure q s) s' s', entryOf_ensure q s s']

/-- With `s' ≠ s`, an `updateQTable` call for `(s, a, r, s')` leaves the row
of `s'` (hence the Bellman target) untouched. -/
theorem updateQTable_entry_target (q : QTable) (s : String) (a : Action)
    (r : Rat) (s' : String) (h : s' ≠ s) :
    entryOf (updateQTable q s a r s') s' = entryOf q s' := by
  unfold updateQTable
  rw [entryOf_setVal_other _ _ _ _ _ h, entryOf_ensure (ensure q s) s' s',
    entryOf_ensure q s s']

theorem iterQ_entry_target (q0 : QTable) (s : String) (a : Action) (r : Rat)
    (s' : String) (h : s' ≠ s) (n : Nat) :
    entryOf (iterQ q0 s a r s' n) s' = entryOf q0 s' := by
  induction n with
  | zero => rfl
  | succ n ih => rw [iterQ, updateQTable_entry_target _ _ _ _ _ h, ih]

theorem residual_step (q0 : QTable) (s : String) (a : Action) (r : Rat)
    (s' : String) (h : s' ≠ s) (n : Nat) :
    residual q0 s a r s' (n + 1) = (9 / 10) * residual q0 s a r s' n := by
  unfold residual
  have hm : maxVal (iterQ q0 s a r s' n) s' = maxVal q0 s' := by
    unfold maxVal
    rw [iterQ_entry_target _ _ _ _ _ h]
  have hv := updateQTable_getVal (iterQ q0 s a r s' n) s a r s'
  rw [show iterQ q0 s a r s' (n + 1)
      = updateQTable (iterQ q0 s a r s' n) s a r s' from rfl, hv, hm]
  rw [show getVal (iterQ q0 s a r s' n) s a
        + 1 / 10 * (r + 9 / 10 * maxVal q0 s' - getVal (iterQ q0 s a r s' n) s a)
        - (r + 9 / 10 * maxVal q0 s')
      = (9 / 10) * (getVal (iterQ q0 s a r s' n) s a - (r + 9 / 10 * maxVal q0 s'))
    from by ring]
  rw [abs_mul]
  norm_num

theorem residual_geometric (q0 : QTable) (s : String) (a : Action) (r : Rat)
    (s' : String) (h : s' ≠ s) (n : Nat) :
    residual q0 s a r s' n = (9 / 10) ^ n * residual q0 s a r s' 0 := by
  induction n with
  | zero => simp
  | succ n ih => rw [residual_step _ _ _ _ _ h, ih, pow_succ]; ring

end QL

/-- C7: one call of the `part_009` Q-value update sets `Q(s,a)` to
`oldQ + 0.1 · (r + 0.9 · max Q(s',·) − oldQ)`, and consequently, for a fixed
transition `(s, a, r, s')` with `s ≠ s'`, the Bellman residual
`|Q(s,a) − (r + 0.9 · max Q(s',·))|` contracts by the factor `0.9` on every
further identical update — so it is non-increasing, follows the geometric
law `0.9ⁿ · residual 0`, and eventually falls below every positive bound. -/
theorem c7_qlearning_update (q0 : QL.QTable) (s : String) (a : QL.Action)
    (r : Rat) (s' : String) (hne : s ≠ s') :
    (∀ q : QL.QTable,
      QL.getVal (QL.updateQTable q s a r s') s a
        = QL.getVal q s a
          + (1 / 10) * (r + (9 / 10) * QL.maxVal q s' - QL.getVal q s a)) ∧
    (∀ n, QL.residual q0 s a r s' (n + 1) = (9 / 10) * QL.residual q0 s a r s' n) ∧
    (∀ n, QL.residual q0 s a r s' (n + 1) ≤ QL.residual q0 s a r s' n) ∧
    (∀ n, QL.residual q0 s a r s' n = (9 / 10) ^ n * QL.residual q0 s a r s' 0) ∧
    (∀ ε : Rat, 0 < ε → ∃ N, ∀ n, N ≤ n → QL.residual q0 s a r s' n < ε) := by
  have h : s' ≠ s := fun hh => hne hh.symm
  have hstep := QL.residual_step q0 s a r s' h
  have hgeom := QL.residual_geometric q0 s a r s' h
  have habs : ∀ n, 0 ≤ QL.residual q0 s a r s' n := fun n => abs_nonneg _
  refine ⟨fun q => QL.updateQTable_getVal q s a r s', hstep, ?_, hgeom, ?_⟩
  · intro n
    rw [hstep n]
    nlinarith [habs n]
  · intro ε hε
    by_cases h0 : QL.residual q0 s a r s' 0 = 0
    · exact ⟨0, fun n _ => by rw [hgeom n, h0]; simpa using hε⟩
    · have hpos : 0 < QL.residual q0 s a r s' 0 := lt_of_le_of_ne (habs 0) (Ne.symm h0)
      obtain ⟨N, hN⟩ := exists_pow_lt_of_lt_one
        (x := ε / QL.residual q0 s a r s' 0) (y := (9 / 10 : Rat))
        (by positivity) (by norm_num)
      refine ⟨N, fun n hn => ?_⟩
      rw [hgeom n]
      have hmono : ((9 : Rat) / 10) ^ n ≤ (9 / 10) ^ N :=
        pow_le_pow_of_le_one (by norm_num) (by norm_num) hn
      have := mul_lt_mul_of_pos_right hN hpos
      rw [div_mul_cancel₀ _ h0] at this
      nlinarith [habs n, hpos]

/-- C7 witness: the update formula and the residual contraction evaluated on
the empty table for the transition `("a", stay, 1, "b")`. -/
theorem c7_witness :
    QL.getVal (QL.updateQTable [] "a" QL.Action.stay 1 "b") "a" QL.Action.stay = 1 / 10 ∧
    QL.residual [] "a" QL.Action.stay 1 "b" 1 = (9 / 10) * QL.residual [] "a" QL.Action.stay 1 "b" 0 := by
  constructor
  · rw [(c7_qlearning_update [] "a" QL.Action.stay 1 "b" (by decide)).1 []]
    decide
  · exact (c7_qlearning_update [] "a" QL.Action.stay 1 "b" (by decide)).2.1 0

/-! ## C8 — adaptive hysteresis -/

/-- Neither switch flag fires while the (incremented) switch timer is below
`minGreenTime = 3` and the (incremented) last-switch clock is at most
`maxWaitTime = 20`, whatever the demand averages are. -/
theorem adaptiveFlags_idle (nsG ewG : Bool) (avgNS avgEW : Rat)
    (nsc ewc : Nat) (st lt : Rat) (h3 : st < 3) (h20 : lt ≤ 20) :
    adaptiveFlags nsG ewG avgNS avgEW nsc ewc st lt = (false, false) := by
  unfold adaptiveFlags
  have hst : decide (st ≥ 3) = false := decide_eq_false (not_le.mpr h3)
  have hlt : decide (lt > 20) = false := decide_eq_false (not_lt.mpr h20)
  simp [hst, hlt]

/-- With both switch flags off, a light's green status survives the
per-light transition step unchanged (only yellow → red can fire). -/
theorem adaptiveLightStep_isGreen (yd dt : Rat) (l : TrafficLight) :
    (adaptiveLightStep false false yd dt l).state.isGreen = l.state.isGreen := by
  unfold adaptiveLightStep
  cases hd : l.direction.isNS <;> cases hs : l.state <;>
    simp [LightState.isGreen, LightState.isYellow, LightState.isRed] <;>
    split_ifs <;> rfl

theorem adaptiveLightStep_direction (toNS toEW : Bool) (yd dt : Rat)
    (l : TrafficLight) :
    (adaptiveLightStep toNS toEW yd dt l).direction = l.direction := by
  simp only [adaptiveLightStep]
  split_ifs <;> rfl

theorem nsGreenB_map_of_invariants (ls : List TrafficLight)
    (f : TrafficLight → TrafficLight)
    (hdir : ∀ l, (f l).direction = l.direction)
    (hgr : ∀ l, (f l).state.isGreen = l.state.isGreen) :
    nsGreenB (ls.map f) = nsGreenB ls := by
  unfold nsGreenB
  rw [List.any_map]
  congr 1
  funext l
  simp [Function.comp, hdir l, hgr l]

theorem ewGreenB_map_of_invariants (ls : List TrafficLight)
    (f : TrafficLight → TrafficLight)
    (hdir : ∀ l, (f l).direction = l.direction)
    (hgr : ∀ l, (f l).state.isGreen = l.state.isGreen) :
    ewGreenB (ls.map f) = ewGreenB ls := by
  unfold ewGreenB
  rw [List.any_map]
  congr 1
  funext l
  simp [Function.comp, hdir l, hgr l]

theorem anyGreenB_of_nsGreenB (ls : List TrafficLight)
    (h : nsGreenB ls = true) : anyGreenB ls = true := by
  unfold nsGreenB at h
  unfold anyGreenB
  rw [List.any_eq_true] at h ⊢
  obtain ⟨l, hl, hp⟩ := h
  simp only [Bool.and_eq_true] at hp
  exact ⟨l, hl, hp.2⟩

/-- C8: with the controller's `minGreenTime = 3`, while the switch timer has
not yet reached 3 seconds since the last switch (and the starvation clock is
within `maxWaitTime = 20`), the demand-based switch path cannot fire — both
switch flags stay down regardless of how strongly the opposing demand
exceeds the current axis's — and an adaptive tick from a north-south-green
state leaves north-south green and east-west without green. -/
theorem c8_adaptive_hysteresis (cs : AdaptiveState) (s : SimulationState)
    (dt : Rat) (hns : nsGreenB s.trafficLights = true)
    (hew : ewGreenB s.trafficLights = false)
    (h3 : cs.switchTimer + dt < 3) (h20 : cs.lastSwitchTime + dt ≤ 20) :
    (∀ avgNS avgEW nsc ewc,
      adaptiveFlags (nsGreenB s.trafficLights) (ewGreenB s.trafficLights)
        avgNS avgEW nsc ewc (cs.switchTimer + dt) (cs.lastSwitchTime + dt)
        = (false, false)) ∧
    nsGreenB (adaptiveUpdate cs s dt).2.trafficLights = true ∧
    ewGreenB (adaptiveUpdate cs s dt).2.trafficLights = false := by
  have hflags : ∀ (nsG ewG : Bool) (avgNS avgEW : Rat) (nsc ewc : Nat),
      adaptiveFlags nsG ewG avgNS avgEW nsc ewc (cs.switchTimer + dt)
        (cs.lastSwitchTime + dt) = (false, false) :=
    fun nsG ewG avgNS avgEW nsc ewc => adaptiveFlags_idle _ _ _ _ _ _ _ _ h3 h20
  refine ⟨fun avgNS avgEW nsc ewc => hflags _ _ _ _ _ _, ?_⟩
  unfold adaptiveUpdate
  simp only [hflags]
  have hmapNS : nsGreenB (s.trafficLights.map
      (adaptiveLightStep false false s.config.aiParams.yellowDuration dt))
      = nsGreenB s.trafficLights :=
    nsGreenB_map_of_invariants _ _
      (adaptiveLightStep_direction false false _ _)
      (adaptiveLightStep_isGreen _ _)
  have hmapEW : ewGreenB (s.trafficLights.map
      (adaptiveLightStep false false s.config.aiParams.yellowDuration dt))
      = ewGreenB s.trafficLights :=
    ewGreenB_map_of_invariants _ _
      (adaptiveLightStep_direction false false _ _)
      (adaptiveLightStep_isGreen _ _)
  have hany : anyGreenB (s.trafficLights.map
      (adaptiveLightStep false false s.config.aiParams.yellowDuration dt)) = true :=
    anyGreenB_of_nsGreenB _ (hmapNS.trans hns)
  simp only [hany, if_true]
  exact ⟨hmapNS.trans hns, hmapEW.trans hew⟩

/-- C8 witness: `adaptiveDemandState` has east-west demand 3 against 0, yet
one adaptive tick of `deltaTime = 1` from the fresh controller state
(switch timer reaching only 1 < 3) leaves north-south green. -/
theorem c8_witness :
    nsGreenB (adaptiveUpdate AdaptiveState.init adaptiveDemandState 1).2.trafficLights = true ∧
    ewGreenB (adaptiveUpdate AdaptiveState.init adaptiveDemandState 1).2.trafficLights = false := by
  have h := c8_adaptive_hysteresis AdaptiveState.init adaptiveDemandState 1
    (by decide) (by decide) (by decide) (by decide)
  exact ⟨h.2.1, h.2.2⟩

/-! ## C9 — the follower-determined safe-distance gate -/

/-- The claim's reading of "strictly ahead along the travel axis". -/
def specAhead (v u : Vehicle) : Prop :=
  match v.direction with
  | .north => u.pos.y < v.pos.y
  | .south => v.pos.y < u.pos.y
  | .east => v.pos.x < u.pos.x
  | .west => u.pos.x < v.pos.x

/-- The claim's gap measure along the travel axis. -/
def specGap (v u : Vehicle) : Rat :=
  match v.direction with
  | .north => v.pos.y - u.pos.y
  | .south => u.pos.y - v.pos.y
  | .east => u.pos.x - v.pos.x
  | .west => v.pos.x - u.pos.x

/-- The claim's follower-type threshold: 25 for a car, 35 for a truck. -/
def specThreshold (v : Vehicle) : Rat :=
  if v.vtype = .car then 25 else 35

theorem safeDistance_eq_specThreshold (v : Vehicle) :
    safeDistance v = specThreshold v := by
  unfold safeDistance specThreshold
  split_ifs <;> norm_num

theorem aheadGate_iff (v u : Vehicle) :
    aheadGate v u = true ↔
      u.id ≠ v.id ∧ u.direction = v.direction ∧ u.lane = v.lane ∧
        specAhead v u ∧ specGap v u < specThreshold v := by
  unfold aheadGate
  rw [safeDistance_eq_specThreshold]
  by_cases hid : u.id = v.id
  · simp [hid]
  · by_cases hdir : u.direction = v.direction
    · by_cases hlane : u.lane = v.lane
      · rw [if_neg hid, if_neg (not_not_intro hdir), if_neg (not_not_intro hlane)]
        cases hv : v.direction <;>
        · simp only [specAhead, specGap, hv, hid, hdir, hlane, ne_eq,
            not_false_eq_true, true_and]
          split_ifs with hcmp
          · simp only [Bool.false_eq_true, false_iff]
            rintro ⟨ha, -⟩
            exact absurd hcmp (not_le.mpr ha)
          · rw [decide_eq_true_iff]
            exact ⟨fun h => ⟨lt_of_not_ge hcmp, h⟩, fun h => h.2⟩
      · simp [hid, hdir, hlane]
    · simp [hid, hdir]

/-- C9: `isVehicleAhead(v, fleet)` returns true exactly when some *other*
vehicle with the same direction and lane lies strictly ahead of `v` along
`v`'s travel axis at a gap strictly below the follower-type threshold — 25
when `v` is a car, 35 when `v` is a truck — independently of the leader's
own type. -/
theorem c9_follower_gate (v : Vehicle) (vs : List Vehicle) :
    isVehicleAhead v vs = true ↔
      ∃ u ∈ vs, u.id ≠ v.id ∧ u.direction = v.direction ∧ u.lane = v.lane ∧
        specAhead v u ∧ specGap v u < specThreshold v := by
  unfold isVehicleAhead
  rw [List.any_eq_true]
  constructor
  · rintro ⟨u, hu, hg⟩
    exact ⟨u, hu, (aheadGate_iff v u).mp hg⟩
  · rintro ⟨u, hu, hg⟩
    exact ⟨u, hu, (aheadGate_iff v u).mpr hg⟩

/-- C9 witness: a car 30 units behind a truck in the same direction and lane
is not gated (30 is below the truck's own 35 threshold but not below the
car's 25), while the same car 20 units behind is. -/
theorem c9_witness :
    isVehicleAhead
      { id := "c", vtype := .car, pos := { x := 100, y := 200 }
        direction := .east, lane := .right, speed := 40, waitTime := 0 }
      [{ id := "t", vtype := .truck, pos := { x := 130, y := 200 }
         direction := .east, lane := .right, speed := 30, waitTime := 0 }] = false ∧
    isVehicleAhead
      { id := "c", vtype := .car, pos := { x := 110, y := 200 }
        direction := .east, lane := .right, speed := 40, waitTime := 0 }
      [{ id := "t", vtype := .truck, pos := { x := 130, y := 200 }
         direction := .east, lane := .right, speed := 30, waitTime := 0 }] = true := by
  constructor
  · rw [← Bool.not_eq_true]
    intro h
    obtain ⟨u, hu, _, _, _, _, hlt⟩ := (c9_follower_gate _ _).mp h
    rw [List.mem_singleton] at hu
    subst hu
    exact absurd hlt (by norm_num [specGap, specThreshold])
  · exact (c9_follower_gate _ _).mpr
      ⟨_, List.mem_singleton.mpr rfl, by decide, rfl, rfl,
        by norm_num [specAhead], by norm_num [specGap, specThreshold]⟩

/-! ## C10 — unknown controller identifiers fall back to fixed timing -/

/-- C10: `getControllerByType` yields the fixed-timing controller for every
string other than `'adaptive'` and `'reinforcement'`, and a tick whose
configured `aiController` is such a string behaves exactly as a
fixed-controller tick. -/
theorem c10_unknown_controller_is_fixed (t : String)
    (h1 : t ≠ "adaptive") (h2 : t ≠ "reinforcement") :
    getControllerByType t = ControllerKind.fixed ∧
    (∀ (w : Pos → Rat) (pow15 : Rat → Rat) (o : Oracle) (s : SimulationState)
      (dt : Rat), s.config.aiController = t →
      updateSimulation w pow15 o s dt
        = updateSimulationKind ControllerKind.fixed w pow15 o s dt) := by
  have hg : getControllerByType t = ControllerKind.fixed := by
    unfold getControllerByType
    rw [if_neg h1, if_neg h2]
  refine ⟨hg, fun w pow15 o s dt hc => ?_⟩
  unfold updateSimulation
  rw [hc, hg]

/-- C10 witness: the empty string and a misspelling both dispatch to the
fixed-timing controller. -/
theorem c10_witness :
    getControllerByType "" = ControllerKind.fixed ∧
    getControllerByType "adaptve" = ControllerKind.fixed := by
  exact ⟨(c10_unknown_controller_is_fixed "" (by decide) (by decide)).1,
    (c10_unknown_controller_is_fixed "adaptve" (by decide) (by decide)).1⟩

/-! ## C2 (amended) — what the adaptive switch actually does -/

/-- C2 amended: on the tick on which the adaptive controller issues a switch
toward east-west, every green north-south light goes yellow and holds yellow
until the full `yellowDuration` has elapsed before turning red — but every
red east-west light turns green *in that same tick*, while the releasing
axis is still yellow (there is no clearance interval before the receiving
axis goes green); witness `c2_amended_witness`, counterexample
`c2_receiving_green_during_yellow`. -/
theorem c2_adaptive_switch_overlap :
    (∀ (yd dt : Rat) (l : TrafficLight), l.direction.isNS = true →
      l.state = .green →
      adaptiveLightStep false true yd dt l = { l with state := .yellow, timer := 0 }) ∧
    (∀ (yd dt : Rat) (l : TrafficLight), l.direction.isEW = true →
      l.state = .red →
      adaptiveLightStep false true yd dt l = { l with state := .green, timer := 0 }) ∧
    (∀ (toNS toEW : Bool) (yd dt : Rat) (l : TrafficLight),
      l.state = .yellow → l.timer + dt < yd →
      adaptiveLightStep toNS toEW yd dt l = { l with timer := l.timer + dt }) ∧
    (∀ (toNS toEW : Bool) (yd dt : Rat) (l : TrafficLight),
      l.state = .yellow → yd ≤ l.timer + dt →
      adaptiveLightStep toNS toEW yd dt l = { l with state := .red, timer := 0 }) := by
  refine ⟨?_, ?_, ?_, ?_⟩
  · intro yd dt l hdir hst
    simp [adaptiveLightStep, hdir, hst, LightState.isGreen]
  · intro yd dt l hdir hst
    have hns : l.direction.isNS = false := by
      cases hd : l.direction <;> rw [hd] at hdir <;> first | rfl | cases hdir
    simp [adaptiveLightStep, hns, hst, LightState.isGreen, LightState.isYellow,
      LightState.isRed]
  · intro toNS toEW yd dt l hst hlt
    have hyd : decide (l.timer + dt ≥ yd) = false := decide_eq_false (not_le.mpr hlt)
    cases hd : l.direction <;>
      simp [adaptiveLightStep, Direction.isNS, hd, hst, hyd,
        LightState.isGreen, LightState.isYellow, LightState.isRed]
  · intro toNS toEW yd dt l hst hge
    have hyd : decide (l.timer + dt ≥ yd) = true := decide_eq_true hge
    cases hd : l.direction <;>
      simp [adaptiveLightStep, Direction.isNS, hd, hst, hyd,
        LightState.isGreen, LightState.isYellow, LightState.isRed]

/-- C2 amended witness: the four transition facts evaluated on concrete
lights with `yellowDuration = 5`, `deltaTime = 1`. -/
theorem c2_amended_witness :
    adaptiveLightStep false true 5 1
        { id := "light-north", pos := { x := 295, y := 195 }
          direction := .north, state := .green, timer := 7 }
      = { id := "light-north", pos := { x := 295, y := 195 }
          direction := .north, state := .yellow, timer := 0 } ∧
    adaptiveLightStep false true 5 1
        { id := "light-east", pos := { x := 335, y := 195 }
          direction := .east, state := .red, timer := 7 }
      = { id := "light-east", pos := { x := 335, y := 195 }
          direction := .east, state := .green, timer := 0 } ∧
    adaptiveLightStep false false 5 1
        { id := "light-north", pos := { x := 295, y := 195 }
          direction := .north, state := .yellow, timer := 3 }
      = { id := "light-north", pos := { x := 295, y := 195 }
          direction := .north, state := .yellow, timer := 4 } ∧
    adaptiveLightStep false false 5 1
        { id := "light-north", pos := { x := 295, y := 195 }
          direction := .north, state := .yellow, timer := 9 / 2 }
      = { id := "light-north", pos := { x := 295, y := 195 }
          direction := .north, state := .red, timer := 0 } := by
  refine ⟨?_, ?_, ?_, ?_⟩
  · exact c2_adaptive_switch_overlap.1 5 1 _ (by decide) rfl
  · exact c2_adaptive_switch_overlap.2.1 5 1 _ (by decide) rfl
  · have h := c2_adaptive_switch_overlap.2.2.1 false false 5 1
      { id := "light-north", pos := { x := 295, y := 195 }
        direction := .north, state := .yellow, timer := 3 } rfl (by decide)
    rw [h]
    decide
  · exact c2_adaptive_switch_overlap.2.2.2 false false 5 1 _ rfl (by decide)

/-! ## C6 (amended) — the fallback of the adaptive and RL controllers -/

def dirList (ls : List TrafficLight) : List Direction :=
  ls.map fun l => l.direction

theorem dirList_map_of (ls : List TrafficLight) (f : TrafficLight → TrafficLight)
    (hdir : ∀ l, (f l).direction = l.direction) :
    dirList (ls.map f) = dirList ls := by
  unfold dirList
  rw [List.map_map]
  congr 1
  funext l
  exact hdir l

theorem exists_axis_of_dirList (ls ls2 : List TrafficLight)
    (p : Direction → Bool) (h : dirList ls2 = dirList ls)
    (hex : ∃ l ∈ ls, p l.direction = true) : ∃ l ∈ ls2, p l.direction = true := by
  obtain ⟨l, hl, hp⟩ := hex
  have : l.direction ∈ dirList ls2 := by
    rw [h]
    exact List.mem_map_of_mem _ hl
  obtain ⟨l2, hl2, he⟩ := List.mem_map.mp this
  exact ⟨l2, hl2, by rw [he]; exact hp⟩

/-- The shared force-an-axis-green fallback map produces a green light
whenever the chosen axis is present. -/
theorem anyGreenB_fallback_map (ls : List TrafficLight) (dirNS : Bool)
    (hns : ∃ l ∈ ls, l.direction.isNS = true)
    (hew : ∃ l ∈ ls, l.direction.isEW = true) :
    anyGreenB (ls.map fun l =>
      if (dirNS && l.direction.isNS) || (!dirNS && l.direction.isEW) then
        { l with state := .green, timer := 0 }
      else l) = true := by
  unfold anyGreenB
  rw [List.any_eq_true]
  cases dirNS with
  | true =>
    obtain ⟨l, hl, hp⟩ := hns
    refine ⟨_, List.mem_map_of_mem _ hl, ?_⟩
    simp [hp, LightState.isGreen]
  | false =>
    obtain ⟨l, hl, hp⟩ := hew
    refine ⟨_, List.mem_map_of_mem _ hl, ?_⟩
    simp [hp, LightState.isGreen]

theorem rlTimingStep_direction (yd dt : Rat) (l : TrafficLight) :
    (rlTimingStep yd dt l).direction = l.direction := by
  simp only [rlTimingStep]
  split_ifs <;> rfl

theorem rlApplyAction_dirList (s : SimulationState) (a : String) :
    dirList (rlApplyAction s a).trafficLights = dirList s.trafficLights := by
  simp only [rlApplyAction]
  split_ifs <;>
    first
    | rfl
    | (exact dirList_map_of _ _ fun l => by split_ifs <;> rfl)

theorem rlConsistencyPass_dirList (ls : List TrafficLight) :
    dirList (rlConsistencyPass ls) = dirList ls := by
  simp only [rlConsistencyPass]
  split_ifs <;>
    first
    | rfl
    | (exact dirList_map_of _ _ fun l => by split_ifs <;> rfl)
    | (rw [dirList_map_of _ _ fun l => by split_ifs <;> rfl,
          dirList_map_of _ _ fun l => by split_ifs <;> rfl])

theorem rlFallbackPass_someGreen (td : TrafficDensity) (ls : List TrafficLight)
    (hns : ∃ l ∈ ls, l.direction.isNS = true)
    (hew : ∃ l ∈ ls, l.direction.isEW = true) :
    anyGreenB (rlFallbackPass td ls) = true := by
  unfold rlFallbackPass
  by_cases h : anyGreenB ls = true
  · simp [h]
  · simp only [h, Bool.false_eq_true, if_false]
    exact anyGreenB_fallback_map _ _ hns hew

/-- C6 amended: the no-green fallback belongs to the adaptive and
reinforcement-learning controllers only — after any tick of either, at least
one light is green whenever the light list carries both axes (the adaptive
fallback picks the axis with the larger weighted-average demand and the
NS axis on ties; the `part_004` RL fallback compares the `north` and `east`
density components).  The fixed-timing controller has no fallback; during
its yellow/all-red clearance windows no axis is green
(`c6_fixed_tick_with_no_green`). -/
theorem c6_fallback_for_adaptive_and_rl :
    (∀ (cs : AdaptiveState) (s : SimulationState) (dt : Rat),
      (∃ l ∈ s.trafficLights, l.direction.isNS = true) →
      (∃ l ∈ s.trafficLights, l.direction.isEW = true) →
      anyGreenB (adaptiveUpdate cs s dt).2.trafficLights = true) ∧
    (∀ (w : Pos → Rat) (pow15 : Rat → Rat) (o : Oracle) (cs : RLState)
      (s : SimulationState) (dt : Rat),
      (∃ l ∈ s.trafficLights, l.direction.isNS = true) →
      (∃ l ∈ s.trafficLights, l.direction.isEW = true) →
      anyGreenB (rlUpdate w pow15 o cs s dt).2.trafficLights = true) := by
  constructor
  · intro cs s dt hns hew
    unfold adaptiveUpdate
    set flags := adaptiveFlags (nsGreenB s.trafficLights) (ewGreenB s.trafficLights)
      ((weightedSums (pushHistory cs.historyNS (s.vehicles.countP fun v => v.direction.isNS))
          (pushHistory cs.historyEW (s.vehicles.countP fun v => v.direction.isEW))).1
        / (weightedSums (pushHistory cs.historyNS (s.vehicles.countP fun v => v.direction.isNS))
          (pushHistory cs.historyEW (s.vehicles.countP fun v => v.direction.isEW))).2.2)
      ((weightedSums (pushHistory cs.historyNS (s.vehicles.countP fun v => v.direction.isNS))
          (pushHistory cs.historyEW (s.vehicles.countP fun v => v.direction.isEW))).2.1
        / (weightedSums (pushHistory cs.historyNS (s.vehicles.countP fun v => v.direction.isNS))
          (pushHistory cs.historyEW (s.vehicles.countP fun v => v.direction.isEW))).2.2)
      (s.vehicles.countP fun v => v.direction.isNS)
      (s.vehicles.countP fun v => v.direction.isEW)
      (cs.switchTimer + dt) (cs.lastSwitchTime + dt) with hflags
    by_cases h : anyGreenB (s.trafficLights.map
        (adaptiveLightStep flags.1 flags.2 s.config.aiParams.yellowDuration dt)) = true
    · simp only [h, if_true]
    · simp only [h, Bool.false_eq_true, if_false]
      have hd : dirList (s.trafficLights.map
          (adaptiveLightStep flags.1 flags.2 s.config.aiParams.yellowDuration dt))
          = dirList s.trafficLights :=
        dirList_map_of _ _ (adaptiveLightStep_direction _ _ _ _)
      exact anyGreenB_fallback_map _ _
        (exists_axis_of_dirList _ _ _ hd hns)
        (exists_axis_of_dirList _ _ _ hd hew)
  · intro w pow15 o cs s dt hns hew
    unfold rlUpdate
    have h1 : dirList ((rlApplyAction s
        (rlSelectAction cs (rlGetCurrentState w s) (rlGetAvailableActions s)
          s.time o.exploreRoll o.actionRoll).2).trafficLights)
        = dirList s.trafficLights := rlApplyAction_dirList _ _
    have h2 : dirList (((rlApplyAction s
        (rlSelectAction cs (rlGetCurrentState w s) (rlGetAvailableActions s)
          s.time o.exploreRoll o.actionRoll).2).trafficLights).map
        (rlTimingStep s.config.aiParams.yellowDuration dt))
        = dirList s.trafficLights := by
      rw [dirList_map_of _ _ (rlTimingStep_direction _ _), h1]
    have h3 := (rlConsistencyPass_dirList (((rlApplyAction s
        (rlSelectAction cs (rlGetCurrentState w s) (rlGetAvailableActions s)
          s.time o.exploreRoll o.actionRoll).2).trafficLights).map
        (rlTimingStep s.config.aiParams.yellowDuration dt))).trans h2
    exact rlFallbackPass_someGreen _ _
      (exists_axis_of_dirList _ _ _ h3 hns)
      (exists_axis_of_dirList _ _ _ h3 hew)

/-- An all-red four-light state with no vehicles under the adaptive
controller: equal (zero) demand on both axes. -/
def allRedTieState : SimulationState :=
  { createInitialState with
      trafficLights := createInitialState.trafficLights.map fun l =>
        { l with state := .red }
      config := { createInitialState.config with aiController := "adaptive" } }

/-- C6 amended witness: the fallback theorems applied to concrete states,
plus the tie-break — from the all-red equal-demand state the adaptive
fallback forces the *north-south* axis green. -/
theorem c6_amended_witness :
    anyGreenB (adaptiveUpdate AdaptiveState.init allRedTieState 1).2.trafficLights = true ∧
    anyGreenB (rlUpdate zeroWeight zeroPow Oracle.noSpawn RLState.init rlStart 1).2.trafficLights = true ∧
    (updateSimulation zeroWeight zeroPow Oracle.noSpawn allRedTieState 1).trafficLights.map
      (fun l => (l.direction, l.state))
      = [(.north, .green), (.south, .green), (.east, .red), (.west, .red)] := by
  refine ⟨?_, ?_, by decide⟩
  · exact c6_fallback_for_adaptive_and_rl.1 AdaptiveState.init allRedTieState 1
      ⟨{ id := "light-north", pos := { x := 295, y := 195 }
         direction := .north, state := .red, timer := 0 }, by decide, by decide⟩
      ⟨{ id := "light-east", pos := { x := 335, y := 195 }
         direction := .east, state := .red, timer := 0 }, by decide, by decide⟩
  · exact c6_fallback_for_adaptive_and_rl.2 zeroWeight zeroPow Oracle.noSpawn
      RLState.init rlStart 1
      ⟨{ id := "light-north", pos := { x := 295, y := 195 }
         direction := .north, state := .red, timer := 0 }, by decide, by decide⟩
      ⟨{ id := "light-east", pos := { x := 335, y := 195 }
         direction := .east, state := .green, timer := 0 }, by decide, by decide⟩

end TrafficSim
